import Mathlib

/-!
Verification of the fall-decision engine of the elderly-fall-detection
repository.  The Python sources `pose_detection/utils/angle_calc.py` and
`pose_detection/fall_detector.py` are shallowly embedded below: pixel
coordinates are `ℤ`, exact fractions (head-height ratios, thresholds,
angles, time) are `ℚ` or `ℝ`, Python `None` becomes `Option`, and the
mutable `FallDetector` object becomes explicit state passing.  The three
`time.time()` reads inside one `detect` call are modelled by a single
`now : ℝ` parameter (the spec's injected clock).  Trigger-reason strings
are modelled by the `TriggerReason` tags carrying the numeric payload of
the formatted message.
-/

open scoped Classical

noncomputable section

namespace FallDetectionRepo

/-- Python `int()` applied to an exact rational: truncation toward zero. -/
def pyint (q : ℚ) : ℤ :=
  if q < 0 then ⌈q⌉ else ⌊q⌋

/-- Joint-coordinate map for the joints consumed by the decision engine
(`landmarks` dictionary); a missing dictionary key is `none`. -/
structure JointMap where
  nose : Option (ℤ × ℤ) := none
  left_shoulder : Option (ℤ × ℤ) := none
  right_shoulder : Option (ℤ × ℤ) := none
  left_hip : Option (ℤ × ℤ) := none
  right_hip : Option (ℤ × ℤ) := none

/-- Embeds `calculate_angle_from_vertical` of `angle_calc.py`:
`math.degrees(math.atan2(abs(dx), abs(dy)))`.  Since both `atan2`
arguments are nonnegative this is `arctan (|dx| / |dy|)` in degrees when
`dy ≠ 0`, `90` when `dy = 0 ≠ dx`, and `0` when both vanish. -/
def calculate_angle_from_vertical (point1 point2 : ℤ × ℤ) : ℝ :=
  let dx : ℤ := point2.1 - point1.1
  let dy : ℤ := point2.2 - point1.2
  if dy = 0 then (if dx = 0 then 0 else 90)
  else Real.arctan (((|dx| : ℤ) : ℝ) / ((|dy| : ℤ) : ℝ)) * 180 / Real.pi

/-- Embeds `calculate_torso_angle`: midpoints of the shoulders and hips
(truncated to `int` as in the source) feed `calculate_angle_from_vertical`;
`None` when any of the four joints is missing. -/
def calculate_torso_angle (lm : JointMap) : Option ℝ :=
  match lm.left_shoulder, lm.right_shoulder, lm.left_hip, lm.right_hip with
  | some ls, some rs, some lh, some rh =>
    let shoulder_mid_x : ℚ := ((ls.1 : ℚ) + (rs.1 : ℚ)) / 2
    let shoulder_mid_y : ℚ := ((ls.2 : ℚ) + (rs.2 : ℚ)) / 2
    let hip_mid_x : ℚ := ((lh.1 : ℚ) + (rh.1 : ℚ)) / 2
    let hip_mid_y : ℚ := ((lh.2 : ℚ) + (rh.2 : ℚ)) / 2
    some (calculate_angle_from_vertical
      (pyint shoulder_mid_x, pyint shoulder_mid_y)
      (pyint hip_mid_x, pyint hip_mid_y))
  | _, _, _, _ => none

/-- Embeds `calculate_body_center`: centroid of the triangle
shoulder-midpoint / left hip / right hip, truncated to `int`;
`None` when any required joint is missing. -/
def calculate_body_center (lm : JointMap) : Option (ℤ × ℤ) :=
  match lm.left_shoulder, lm.right_shoulder, lm.left_hip, lm.right_hip with
  | some ls, some rs, some lh, some rh =>
    let shoulder_mid_x : ℚ := ((ls.1 : ℚ) + (rs.1 : ℚ)) / 2
    let shoulder_mid_y : ℚ := ((ls.2 : ℚ) + (rs.2 : ℚ)) / 2
    some (pyint ((shoulder_mid_x + (lh.1 : ℚ) + (rh.1 : ℚ)) / 3),
          pyint ((shoulder_mid_y + (lh.2 : ℚ) + (rh.2 : ℚ)) / 3))
  | _, _, _, _ => none

/-- Embeds `calculate_head_height_ratio`: `nose_y / frame_height`
(real division, as Python's `/`); `None` when the nose is missing. -/
def calculate_head_height_ratio' (lm : JointMap) (frame_height : ℤ) : Option ℝ :=
  match lm.nose with
  | some n => some ((n.2 : ℝ) / (frame_height : ℝ))
  | none => none

/-- Embeds `calculate_center_shift`: `math.sqrt(dx*dx + dy*dy)`. -/
def calculate_center_shift (current_center previous_center : ℤ × ℤ) : ℝ :=
  let dx : ℤ := current_center.1 - previous_center.1
  let dy : ℤ := current_center.2 - previous_center.2
  Real.sqrt ((dx * dx + dy * dy : ℤ) : ℝ)

/-- State of `AngleTracker` of `angle_calc.py`: three bounded FIFO
buffers plus the capacity. -/
structure AngleTracker where
  history_size : ℕ
  torso_history : List ℝ
  center_history : List (ℤ × ℤ)
  head_height_history : List ℝ

/-- Embeds `AngleTracker.update`: append each present value, then pop the
front entry once the length exceeds `history_size`. -/
def AngleTracker.update (t : AngleTracker) (torso_angle : Option ℝ)
    (center : Option (ℤ × ℤ)) (head_height : Option ℝ) : AngleTracker :=
  let th := match torso_angle with
    | some a =>
      let h := t.torso_history ++ [a]
      if t.history_size < h.length then h.tail else h
    | none => t.torso_history
  let ch := match center with
    | some c =>
      let h := t.center_history ++ [c]
      if t.history_size < h.length then h.tail else h
    | none => t.center_history
  let hh := match head_height with
    | some v =>
      let h := t.head_height_history ++ [v]
      if t.history_size < h.length then h.tail else h
    | none => t.head_height_history
  { t with torso_history := th, center_history := ch, head_height_history := hh }

/-- Embeds `AngleTracker.get_center_shift`: distance between the two most
recent center points, `None` when fewer than two are buffered. -/
def AngleTracker.get_center_shift (t : AngleTracker) : Option ℝ :=
  if t.center_history.length < 2 then none
  else some (calculate_center_shift
    (t.center_history.getD (t.center_history.length - 1) (0, 0))
    (t.center_history.getD (t.center_history.length - 2) (0, 0)))

/-- Embeds `AngleTracker.get_head_height_change`: difference of the two
most recent head-height samples, `None` when fewer than two. -/
def AngleTracker.get_head_height_change (t : AngleTracker) : Option ℝ :=
  if t.head_height_history.length < 2 then none
  else some (t.head_height_history.getD (t.head_height_history.length - 1) 0 -
             t.head_height_history.getD (t.head_height_history.length - 2) 0)

/-- Embeds `AngleTracker.get_max_center_shift`: over the last
`min(frames, length-1)` adjacent pairs (Python indices `-check_frames .. -1`
paired with their predecessor), the maximum pairwise distance; `None` when
fewer than two samples are buffered (or the pair list is empty). -/
def AngleTracker.get_max_center_shift (t : AngleTracker) (frames : ℕ) : Option ℝ :=
  if t.center_history.length < 2 then none
  else
    let cf := min frames (t.center_history.length - 1)
    let shifts := (List.range cf).map (fun j =>
      calculate_center_shift
        (t.center_history.getD (t.center_history.length - cf + j) (0, 0))
        (t.center_history.getD (t.center_history.length - cf + j - 1) (0, 0)))
    shifts.max?

/-- Embeds `AngleTracker.reset`: clears the three buffers. -/
def AngleTracker.reset (t : AngleTracker) : AngleTracker :=
  { t with torso_history := [], center_history := [], head_height_history := [] }

/-- Severity tags of `fall_detector.py` (`AlertSeverity`). -/
inductive AlertSeverity where
  | NONE
  | MILD
  | SEVERE
deriving DecidableEq

/-- Numeric `.value` of the Python enum. -/
def AlertSeverity.value : AlertSeverity → ℕ
  | .NONE => 0
  | .MILD => 1
  | .SEVERE => 2

/-- Tags for the trigger-reason strings appended by `detect`; the torso
tag carries the angle interpolated into the message. -/
inductive TriggerReason where
  | torso_angle_abnormal : ℝ → TriggerReason
  | head_drop : TriggerReason
  | center_shift : TriggerReason

/-- State of a `FallDetector` object: configuration fields, tracker,
debounce counter, cooldown timestamp and calibration baseline. -/
structure FallDetector where
  torso_angle_threshold : ℝ
  head_drop_threshold : ℝ
  center_shift_threshold : ℝ
  consecutive_frames : ℤ
  cooldown_seconds : ℝ
  mild_angle_range : ℝ × ℝ
  severe_angle_min : ℝ
  angle_tracker : AngleTracker
  consecutive_detections : ℤ
  last_alert_time : ℝ
  baseline_head_height : Option ℝ
  baseline_center : Option (ℤ × ℤ)
  is_calibrated : Bool

/-- Embeds `FallDetector.__init__`: stores every argument unchecked (the
source performs no validation), fresh tracker of capacity 30, counter 0,
`last_alert_time = 0`, no baseline. -/
def fall_detector_init (torso_angle_threshold head_drop_threshold center_shift_threshold : ℝ)
    (consecutive_frames : ℤ) (cooldown_seconds : ℝ) (mild_angle_range : ℝ × ℝ)
    (severe_angle_min : ℝ) : FallDetector :=
  { torso_angle_threshold := torso_angle_threshold
    head_drop_threshold := head_drop_threshold
    center_shift_threshold := center_shift_threshold
    consecutive_frames := consecutive_frames
    cooldown_seconds := cooldown_seconds
    mild_angle_range := mild_angle_range
    severe_angle_min := severe_angle_min
    angle_tracker := ⟨30, [], [], []⟩
    consecutive_detections := 0
    last_alert_time := 0
    baseline_head_height := none
    baseline_center := none
    is_calibrated := false }

/-- A detector built with all default constructor arguments. -/
def default_detector : FallDetector :=
  fall_detector_init 35 0.15 150 5 30 (35, 50) 50

/-- Embeds `FallDetector.calibrate`. -/
def calibrate (d : FallDetector) (head_height : ℝ) (center : ℤ × ℤ) : FallDetector :=
  { d with baseline_head_height := some head_height,
           baseline_center := some center,
           is_calibrated := true }

/-- Embeds `FallDetector.reset_calibration`. -/
def reset_calibration (d : FallDetector) : FallDetector :=
  { d with baseline_head_height := none,
           baseline_center := none,
           is_calibrated := false,
           angle_tracker := d.angle_tracker.reset }

/-- Embeds `FallDetector.force_reset_cooldown`. -/
def force_reset_cooldown (d : FallDetector) : FallDetector :=
  { d with last_alert_time := 0, consecutive_detections := 0 }

/-- Embeds `FallDetector._check_torso_angle`. -/
def check_torso_angle (d : FallDetector) (angle : ℝ) : Bool × AlertSeverity :=
  if d.severe_angle_min ≤ angle then (true, .SEVERE)
  else if d.mild_angle_range.1 ≤ angle then (true, .MILD)
  else (false, .NONE)

/-- Embeds `FallDetector._check_head_drop` (called with the tracker
already updated for the current frame, as in `detect`). -/
def check_head_drop (d : FallDetector) (tr : AngleTracker) (current_height : ℝ) : Bool :=
  let deltaHit : Bool :=
    match tr.get_head_height_change with
    | some change => if d.head_drop_threshold < change then true else false
    | none => false
  if deltaHit then true
  else
    match d.baseline_head_height with
    | some b => if d.head_drop_threshold * 2 < current_height - b then true else false
    | none => false

/-- Embeds `FallDetector._check_center_shift`. -/
def check_center_shift (d : FallDetector) (tr : AngleTracker) : Bool :=
  match tr.get_max_center_shift 5 with
  | some s => if d.center_shift_threshold < s then true else false
  | none => false

/-- Embeds `FallDetector._is_in_cooldown` at clock value `now`. -/
def is_in_cooldown (d : FallDetector) (now : ℝ) : Bool :=
  if now - d.last_alert_time < d.cooldown_seconds then true else false

/-- Embeds `FallDetector._calculate_confidence` (called after the
counter update, with the already-updated counter). -/
def calculate_confidence (d : FallDetector) (trigger_count : ℕ)
    (severity : AlertSeverity) (consec : ℤ) : ℝ :=
  let base : ℝ := (trigger_count : ℝ) / 3
  let base2 : ℝ :=
    if severity = AlertSeverity.SEVERE then base * 1.2
    else if severity = AlertSeverity.MILD then base * 1.0
    else base
  let base3 : ℝ := base2 * (0.5 + 0.5 * min ((consec : ℝ) / (d.consecutive_frames : ℝ)) 1)
  min base3 1

/-- Result record of one `detect` call (`DetectionResult`). -/
structure DetectionResult where
  is_fall_detected : Bool
  severity : AlertSeverity
  torso_angle : Option ℝ
  head_height : Option ℝ
  center_shift : Option ℝ
  trigger_reasons : List TriggerReason
  timestamp : ℝ
  confidence : ℝ

/-- Lines 220-239 of `detect`: evaluate the three trigger rules in source
order, accumulating the reason list and the running maximal severity. -/
def eval_triggers (d : FallDetector) (tracker : AngleTracker)
    (torso_angle : Option ℝ) (head_height : Option ℝ) :
    List TriggerReason × AlertSeverity :=
  let s1 : List TriggerReason × AlertSeverity :=
    match torso_angle with
    | some a =>
      let c := check_torso_angle d a
      if c.1 then
        ([TriggerReason.torso_angle_abnormal a],
         if AlertSeverity.NONE.value < c.2.value then c.2 else AlertSeverity.NONE)
      else ([], AlertSeverity.NONE)
    | none => ([], AlertSeverity.NONE)
  let s2 : List TriggerReason × AlertSeverity :=
    match head_height with
    | some hh =>
      if check_head_drop d tracker hh then
        (s1.1 ++ [TriggerReason.head_drop],
         if s1.2 = AlertSeverity.NONE then AlertSeverity.MILD else s1.2)
      else s1
    | none => s1
  if check_center_shift d tracker then
    (s2.1 ++ [TriggerReason.center_shift],
     if s2.2 = AlertSeverity.NONE then AlertSeverity.MILD else s2.2)
  else s2

/-- Lines 244-247 of `detect`: debounce counter update. -/
def update_consecutive (c : ℤ) (has_trigger : Bool) : ℤ :=
  if has_trigger then c + 1 else max 0 (c - 1)

/-- Lines 249-254 of `detect`: alarm eligibility before the cooldown gate. -/
def should_alert_flag (d : FallDetector) (num_reasons : ℕ) (consec : ℤ) : Bool :=
  if 2 ≤ num_reasons then true
  else if d.consecutive_frames ≤ consec then true
  else false

/-- Tracker state after the `update` call inside `detect`. -/
def detect_tracker (d : FallDetector) (lm : JointMap) (fh : ℤ) : AngleTracker :=
  d.angle_tracker.update (calculate_torso_angle lm) (calculate_body_center lm)
    (calculate_head_height_ratio' lm fh)

/-- Reason list and frame severity computed inside `detect`. -/
def detect_triggers (d : FallDetector) (lm : JointMap) (fh : ℤ) :
    List TriggerReason × AlertSeverity :=
  eval_triggers d (detect_tracker d lm fh) (calculate_torso_angle lm)
    (calculate_head_height_ratio' lm fh)

/-- Debounce counter value after the update inside `detect`. -/
def detect_consec (d : FallDetector) (lm : JointMap) (fh : ℤ) : ℤ :=
  update_consecutive d.consecutive_detections (0 < (detect_triggers d lm fh).1.length)

/-- Final alarm flag of `detect`: eligibility, then cooldown suppression. -/
def detect_alert (d : FallDetector) (lm : JointMap) (fh : ℤ) (now : ℝ) : Bool :=
  let sa0 := should_alert_flag d (detect_triggers d lm fh).1.length (detect_consec d lm fh)
  if sa0 && is_in_cooldown d now then false else sa0

/-- Embeds `FallDetector.detect`: returns the mutated detector state and
the `DetectionResult` of the frame. -/
def detect (d : FallDetector) (lm : JointMap) (fh : ℤ) (now : ℝ) :
    FallDetector × DetectionResult :=
  ({ d with
      angle_tracker := detect_tracker d lm fh,
      consecutive_detections := detect_consec d lm fh,
      last_alert_time := if detect_alert d lm fh now then now else d.last_alert_time },
   { is_fall_detected := detect_alert d lm fh now
     severity := (detect_triggers d lm fh).2
     torso_angle := calculate_torso_angle lm
     head_height := calculate_head_height_ratio' lm fh
     center_shift := (detect_tracker d lm fh).get_center_shift
     trigger_reasons := (detect_triggers d lm fh).1
     timestamp := now
     confidence := calculate_confidence d (detect_triggers d lm fh).1.length
       (detect_triggers d lm fh).2 (detect_consec d lm fh) })

/-- One frame of input to `detect`: joint map, frame height, clock value. -/
abbrev DetectFrame := JointMap × ℤ × ℝ

/-- Sequential execution of `detect` over a list of frames. -/
def run (d : FallDetector) (frames : List DetectFrame) :
    FallDetector × List DetectionResult :=
  match frames with
  | [] => (d, [])
  | f :: rest =>
    let step := detect d f.1 f.2.1 f.2.2
    let tailRun := run step.1 rest
    (tailRun.1, step.2 :: tailRun.2)

/-! Generic unfolding lemmas for `detect` (all definitional). -/

@[simp] lemma detect_fst_tracker (d : FallDetector) (lm : JointMap) (fh : ℤ) (now : ℝ) :
    (detect d lm fh now).1.angle_tracker = detect_tracker d lm fh := rfl

@[simp] lemma detect_fst_consec (d : FallDetector) (lm : JointMap) (fh : ℤ) (now : ℝ) :
    (detect d lm fh now).1.consecutive_detections = detect_consec d lm fh := rfl

@[simp] lemma detect_fst_last_alert (d : FallDetector) (lm : JointMap) (fh : ℤ) (now : ℝ) :
    (detect d lm fh now).1.last_alert_time =
      (if detect_alert d lm fh now then now else d.last_alert_time) := rfl

@[simp] lemma detect_snd_fall (d : FallDetector) (lm : JointMap) (fh : ℤ) (now : ℝ) :
    (detect d lm fh now).2.is_fall_detected = detect_alert d lm fh now := rfl

@[simp] lemma detect_snd_reasons (d : FallDetector) (lm : JointMap) (fh : ℤ) (now : ℝ) :
    (detect d lm fh now).2.trigger_reasons = (detect_triggers d lm fh).1 := rfl

@[simp] lemma detect_snd_severity (d : FallDetector) (lm : JointMap) (fh : ℤ) (now : ℝ) :
    (detect d lm fh now).2.severity = (detect_triggers d lm fh).2 := rfl

@[simp] lemma detect_fst_torso_angle_threshold (d : FallDetector) (lm : JointMap) (fh : ℤ) (now : ℝ) :
    (detect d lm fh now).1.torso_angle_threshold = d.torso_angle_threshold := rfl

@[simp] lemma detect_fst_head_drop_threshold (d : FallDetector) (lm : JointMap) (fh : ℤ) (now : ℝ) :
    (detect d lm fh now).1.head_drop_threshold = d.head_drop_threshold := rfl

@[simp] lemma detect_fst_center_shift_threshold (d : FallDetector) (lm : JointMap) (fh : ℤ) (now : ℝ) :
    (detect d lm fh now).1.center_shift_threshold = d.center_shift_threshold := rfl

@[simp] lemma detect_fst_consecutive_frames (d : FallDetector) (lm : JointMap) (fh : ℤ) (now : ℝ) :
    (detect d lm fh now).1.consecutive_frames = d.consecutive_frames := rfl

@[simp] lemma detect_fst_cooldown_seconds (d : FallDetector) (lm : JointMap) (fh : ℤ) (now : ℝ) :
    (detect d lm fh now).1.cooldown_seconds = d.cooldown_seconds := rfl

@[simp] lemma detect_fst_mild_angle_range (d : FallDetector) (lm : JointMap) (fh : ℤ) (now : ℝ) :
    (detect d lm fh now).1.mild_angle_range = d.mild_angle_range := rfl

@[simp] lemma detect_fst_severe_angle_min (d : FallDetector) (lm : JointMap) (fh : ℤ) (now : ℝ) :
    (detect d lm fh now).1.severe_angle_min = d.severe_angle_min := rfl

@[simp] lemma detect_fst_baseline_head_height (d : FallDetector) (lm : JointMap) (fh : ℤ) (now : ℝ) :
    (detect d lm fh now).1.baseline_head_height = d.baseline_head_height := rfl

/-- The final alarm flag equals eligibility conjoined with the negated
cooldown gate. -/
lemma detect_alert_eq (d : FallDetector) (lm : JointMap) (fh : ℤ) (now : ℝ) :
    detect_alert d lm fh now =
      (should_alert_flag d (detect_triggers d lm fh).1.length (detect_consec d lm fh)
        && !(is_in_cooldown d now)) := by
  unfold detect_alert
  cases h1 : should_alert_flag d (detect_triggers d lm fh).1.length (detect_consec d lm fh) <;>
    cases h2 : is_in_cooldown d now <;> simp [h1, h2]

lemma is_in_cooldown_true_iff (d : FallDetector) (now : ℝ) :
    is_in_cooldown d now = true ↔ now - d.last_alert_time < d.cooldown_seconds := by
  unfold is_in_cooldown
  split <;> simp_all

lemma is_in_cooldown_false_iff (d : FallDetector) (now : ℝ) :
    is_in_cooldown d now = false ↔ d.cooldown_seconds ≤ now - d.last_alert_time := by
  unfold is_in_cooldown
  split <;> rename_i h <;> simp <;> [exact h; exact not_lt.1 h]

lemma should_alert_flag_true_iff (d : FallDetector) (n : ℕ) (c : ℤ) :
    should_alert_flag d n c = true ↔ (2 ≤ n ∨ d.consecutive_frames ≤ c) := by
  unfold should_alert_flag
  split <;> [simp_all; skip]
  split <;> simp_all

/-- A `detect` call inside the cooldown window never raises the alarm and
leaves `last_alert_time` unchanged. -/
lemma detect_suppressed (d : FallDetector) (lm : JointMap) (fh : ℤ) (now : ℝ)
    (h : now - d.last_alert_time < d.cooldown_seconds) :
    (detect d lm fh now).2.is_fall_detected = false ∧
    (detect d lm fh now).1.last_alert_time = d.last_alert_time := by
  have hc : is_in_cooldown d now = true := (is_in_cooldown_true_iff d now).2 h
  have ha : detect_alert d lm fh now = false := by
    rw [detect_alert_eq, hc]
    simp
  constructor
  · simpa using ha
  · simp [ha]

/-- When no alarm fires, `last_alert_time` is preserved. -/
lemma detect_no_fire_last_alert (d : FallDetector) (lm : JointMap) (fh : ℤ) (now : ℝ)
    (h : (detect d lm fh now).2.is_fall_detected = false) :
    (detect d lm fh now).1.last_alert_time = d.last_alert_time := by
  have : detect_alert d lm fh now = false := by simpa using h
  simp [this]

@[simp] lemma run_nil (d : FallDetector) : run d [] = (d, []) := rfl

@[simp] lemma run_cons (d : FallDetector) (f : DetectFrame) (rest : List DetectFrame) :
    run d (f :: rest) =
      ((run (detect d f.1 f.2.1 f.2.2).1 rest).1,
       (detect d f.1 f.2.1 f.2.2).2 :: (run (detect d f.1 f.2.1 f.2.2).1 rest).2) := rfl

lemma run_append (d : FallDetector) (xs ys : List DetectFrame) :
    run d (xs ++ ys) =
      ((run (run d xs).1 ys).1, (run d xs).2 ++ (run (run d xs).1 ys).2) := by
  induction xs generalizing d with
  | nil => simp
  | cons f rest ih => simp [ih]

lemma run_length (d : FallDetector) (frames : List DetectFrame) :
    (run d frames).2.length = frames.length := by
  induction frames generalizing d with
  | nil => simp
  | cons f rest ih => simp [ih]

/-- Claim C10 supporting facts about `calibrate` and `reset_calibration`. -/
theorem c10_calibration_frame_effects :
    ∀ (d : FallDetector) (hh : ℝ) (c : ℤ × ℤ),
      (calibrate d hh c).consecutive_detections = d.consecutive_detections ∧
      (calibrate d hh c).last_alert_time = d.last_alert_time ∧
      (calibrate d hh c).angle_tracker = d.angle_tracker ∧
      (calibrate d hh c).baseline_head_height = some hh ∧
      (calibrate d hh c).baseline_center = some c ∧
      (calibrate d hh c).is_calibrated = true ∧
      (calibrate d hh c).torso_angle_threshold = d.torso_angle_threshold ∧
      (calibrate d hh c).consecutive_frames = d.consecutive_frames ∧
      (calibrate d hh c).cooldown_seconds = d.cooldown_seconds ∧
      (reset_calibration d).consecutive_detections = d.consecutive_detections ∧
      (reset_calibration d).last_alert_time = d.last_alert_time ∧
      (reset_calibration d).baseline_head_height = none ∧
      (reset_calibration d).baseline_center = none ∧
      (reset_calibration d).is_calibrated = false ∧
      (reset_calibration d).angle_tracker.torso_history = [] ∧
      (reset_calibration d).angle_tracker.center_history = [] ∧
      (reset_calibration d).angle_tracker.head_height_history = [] ∧
      (reset_calibration d).angle_tracker.history_size = d.angle_tracker.history_size := by
  intro d hh c
  refine ⟨rfl, rfl, rfl, rfl, rfl, rfl, rfl, rfl, rfl, rfl, rfl, rfl, rfl, rfl, ?_, ?_, ?_, ?_⟩ <;>
    simp [reset_calibration, AngleTracker.reset]

/-- Claim C4: the constructor performs no validation.  Invoked with a
negative torso threshold and an inverted mild range it still returns a
detector instance that stores the invalid values unchanged, contradicting
the spec's requirement of a construction-time validation failure. -/
theorem c4_init_accepts_invalid_config :
    (fall_detector_init (-1) 0.15 150 5 30 (50, 35) 50).torso_angle_threshold = -1 ∧
    (fall_detector_init (-1) 0.15 150 5 30 (50, 35) 50).mild_angle_range = (50, 35) ∧
    (fall_detector_init (-1) 0.15 150 5 30 (50, 35) 50).consecutive_detections = 0 := by
  exact ⟨rfl, rfl, rfl⟩

/-- Claim C2: starting from any state whose `last_alert_time` is `T`
(in particular the state produced by an alarm at time `T`), every frame
of a run whose timestamps all lie in the half-open window
`[T, T + cooldown_seconds)` yields `is_fall_detected = false`, whatever
the trigger conditions; and whenever a `detect` call does raise the
alarm, the new state's `last_alert_time` is the current clock value. -/
theorem c2_cooldown_window :
    (∀ (d : FallDetector) (frames : List DetectFrame) (T : ℝ),
      d.last_alert_time = T →
      (∀ f ∈ frames, T ≤ f.2.2 ∧ f.2.2 < T + d.cooldown_seconds) →
      ∀ r ∈ (run d frames).2, r.is_fall_detected = false) ∧
    (∀ (d : FallDetector) (lm : JointMap) (fh : ℤ) (now : ℝ),
      (detect d lm fh now).2.is_fall_detected = true →
      (detect d lm fh now).1.last_alert_time = now) := by
  constructor
  · intro d frames
    induction frames generalizing d with
    | nil => intro T _ _ r hr; simp at hr
    | cons f rest ih =>
      intro T hT hwin r hr
      have hf := hwin f (List.mem_cons_self f rest)
      have h1 : (detect d f.1 f.2.1 f.2.2).2.is_fall_detected = false ∧
          (detect d f.1 f.2.1 f.2.2).1.last_alert_time = d.last_alert_time := by
        refine detect_suppressed d f.1 f.2.1 f.2.2 ?_
        rw [hT]
        linarith [hf.2]
      rw [run_cons] at hr
      rcases List.mem_cons.1 hr with h | h
      · rw [h]; exact h1.1
      · refine ih (detect d f.1 f.2.1 f.2.2).1 T ?_ ?_ r h
        · rw [detect_fst_last_alert] at h1
          exact h1.2.trans hT
        · intro g hg
          have := hwin g (List.mem_cons_of_mem f hg)
          simpa using this
  · intro d lm fh now h
    have : detect_alert d lm fh now = true := by simpa using h
    simp [this]

/-! Helper lemmas for evaluating the tracker on constant histories. -/

lemma calculate_center_shift_self (p : ℤ × ℤ) : calculate_center_shift p p = 0 := by
  simp [calculate_center_shift]

lemma getD_replicate {α : Type} (m i : ℕ) (c dflt : α) (h : i < m) :
    (List.replicate m c).getD i dflt = c := by
  rw [List.getD_eq_getElem _ _ (by simpa using h)]
  simp

lemma foldl_max_replicate (a : ℝ) (t : ℕ) : List.foldl max a (List.replicate t a) = a := by
  induction t with
  | zero => simp
  | succ n ih => simpa [List.replicate_succ] using ih

lemma max?_replicate_pos (t : ℕ) (a : ℝ) (h : 0 < t) :
    (List.replicate t a).max? = some a := by
  cases t with
  | zero => omega
  | succ n =>
    rw [List.replicate_succ]
    show some (List.foldl max a (List.replicate n a)) = some a
    rw [foldl_max_replicate]

/-- On a constant center history of length `m`, `get_max_center_shift`
returns `0` when `m ≥ 2` and is absent otherwise. -/
lemma gmcs_replicate (t : AngleTracker) (m : ℕ) (c : ℤ × ℤ)
    (h : t.center_history = List.replicate m c) :
    t.get_max_center_shift 5 = if 2 ≤ m then some 0 else none := by
  unfold AngleTracker.get_max_center_shift
  rw [h, List.length_replicate]
  by_cases hm : m < 2
  · rw [if_pos hm, if_neg (by omega)]
  · rw [if_neg hm, if_pos (by omega)]
    dsimp only
    have hcf1 : 1 ≤ min 5 (m - 1) := by omega
    have hmem : ∀ b ∈ (List.range (min 5 (m - 1))).map (fun j =>
        calculate_center_shift
          ((List.replicate m c).getD (m - min 5 (m - 1) + j) (0, 0))
          ((List.replicate m c).getD (m - min 5 (m - 1) + j - 1) (0, 0))), b = (0:ℝ) := by
      intro b hb
      rcases List.mem_map.1 hb with ⟨j, hj, rfl⟩
      have hjcf : j < min 5 (m - 1) := List.mem_range.1 hj
      rw [getD_replicate m _ c _ (by omega), getD_replicate m _ c _ (by omega)]
      exact calculate_center_shift_self c
    have hmap := List.eq_replicate_of_mem hmem
    rw [List.length_map, List.length_range] at hmap
    rw [hmap, max?_replicate_pos _ 0 (by omega)]

/-- Concrete torso-only frame: level shoulders and hips, no nose.  The
shoulder midpoint is `(1,0)` and the hip midpoint `(11,0)`, a horizontal
torso segment, so the torso angle is exactly 90 degrees; the body center
truncates to `(7,0)`. -/
def lmT : JointMap :=
  { left_shoulder := some (0, 0), right_shoulder := some (2, 0),
    left_hip := some (10, 0), right_hip := some (12, 0) }

/-- Concrete frame with every joint missing. -/
def lmE : JointMap := {}

lemma torso_angle_lmT : calculate_torso_angle lmT = some 90 := by
  have h1 : pyint ((((0:ℤ) : ℚ) + ((2:ℤ) : ℚ)) / 2) = 1 := by norm_num [pyint]
  have h2 : pyint ((((0:ℤ) : ℚ) + ((0:ℤ) : ℚ)) / 2) = 0 := by norm_num [pyint]
  have h3 : pyint ((((10:ℤ) : ℚ) + ((12:ℤ) : ℚ)) / 2) = 11 := by norm_num [pyint]
  simp only [calculate_torso_angle, lmT, h1, h2, h3]
  norm_num [calculate_angle_from_vertical]

lemma body_center_lmT : calculate_body_center lmT = some (7, 0) := by
  simp only [calculate_body_center, lmT]
  norm_num [pyint]

lemma head_height_lmT (fh : ℤ) : calculate_head_height_ratio' lmT fh = none := rfl

lemma torso_angle_lmE : calculate_torso_angle lmE = none := rfl

lemma body_center_lmE : calculate_body_center lmE = none := rfl

lemma head_height_lmE (fh : ℤ) : calculate_head_height_ratio' lmE fh = none := rfl

/-- Invariant carried along the concrete traces built from `lmT` / `lmE`
frames: default thresholds, a constant center history of length `m`,
debounce counter `c` and last alert time `L`. -/
def StFacts (s : FallDetector) (m : ℕ) (c : ℤ) (L : ℝ) : Prop :=
  s.severe_angle_min = 50 ∧ s.center_shift_threshold = 150 ∧
  s.consecutive_frames = 5 ∧ s.cooldown_seconds = 30 ∧
  s.angle_tracker.center_history = List.replicate m ((7:ℤ), (0:ℤ)) ∧
  s.angle_tracker.history_size = 30 ∧
  s.consecutive_detections = c ∧
  s.last_alert_time = L

lemma stfacts_default : StFacts default_detector 0 0 0 := by
  refine ⟨rfl, rfl, rfl, rfl, rfl, rfl, rfl, rfl⟩

lemma detect_tracker_lmT (d : FallDetector) (k : ℕ)
    (hch : d.angle_tracker.center_history = List.replicate k ((7:ℤ), (0:ℤ)))
    (hsize : d.angle_tracker.history_size = 30) (hk : k + 1 ≤ 30) :
    (detect_tracker d lmT 480).center_history = List.replicate (k + 1) ((7:ℤ), (0:ℤ)) ∧
    (detect_tracker d lmT 480).history_size = 30 := by
  unfold detect_tracker AngleTracker.update
  rw [torso_angle_lmT, body_center_lmT, head_height_lmT]
  dsimp only
  rw [hch, hsize]
  constructor
  · rw [if_neg (by simp; omega)]
    rw [← List.replicate_succ' k ((7:ℤ), (0:ℤ))]
  · rfl

lemma detect_tracker_lmE (d : FallDetector) (fh : ℤ) :
    detect_tracker d lmE fh = d.angle_tracker := rfl

lemma detect_triggers_lmT (d : FallDetector) (k : ℕ)
    (hsev : d.severe_angle_min = 50) (hcs : d.center_shift_threshold = 150)
    (hch : d.angle_tracker.center_history = List.replicate k ((7:ℤ), (0:ℤ)))
    (hsize : d.angle_tracker.history_size = 30) (hk : k + 1 ≤ 30) :
    detect_triggers d lmT 480 = ([TriggerReason.torso_angle_abnormal 90], AlertSeverity.SEVERE) := by
  have htrk := detect_tracker_lmT d k hch hsize hk
  have hgm := gmcs_replicate (detect_tracker d lmT 480) (k + 1) ((7:ℤ), (0:ℤ)) htrk.1
  have hct : check_torso_angle d 90 = (true, AlertSeverity.SEVERE) := by
    unfold check_torso_angle
    rw [hsev]
    norm_num
  have hccs : check_center_shift d (detect_tracker d lmT 480) = false := by
    unfold check_center_shift
    rw [hgm]
    by_cases h2 : 2 ≤ k + 1
    · rw [if_pos h2, hcs]
      norm_num
    · rw [if_neg h2]
  unfold detect_triggers eval_triggers
  rw [torso_angle_lmT, head_height_lmT]
  dsimp only
  rw [hct, hccs]
  simp [AlertSeverity.value]

lemma detect_triggers_lmE (d : FallDetector) (k : ℕ)
    (hcs : d.center_shift_threshold = 150)
    (hch : d.angle_tracker.center_history = List.replicate k ((7:ℤ), (0:ℤ))) :
    detect_triggers d lmE 480 = ([], AlertSeverity.NONE) := by
  have hgm := gmcs_replicate (detect_tracker d lmE 480) k ((7:ℤ), (0:ℤ))
    (by rw [detect_tracker_lmE]; exact hch)
  have hccs : check_center_shift d (detect_tracker d lmE 480) = false := by
    unfold check_center_shift
    rw [hgm]
    by_cases h2 : 2 ≤ k
    · rw [if_pos h2, hcs]
      norm_num
    · rw [if_neg h2]
  unfold detect_triggers eval_triggers
  rw [torso_angle_lmE, head_height_lmE]
  dsimp only
  rw [hccs]
  simp

/-- One `detect` step on the torso-only frame `lmT` from a `StFacts`
state: the torso rule alone triggers with severity SEVERE, the counter
increments, and the alarm fires exactly when the incremented counter
reaches the threshold 5 and the cooldown has elapsed. -/
lemma torso_step (d : FallDetector) (m : ℕ) (c : ℤ) (L now : ℝ)
    (h : StFacts d m c L) (hm : m + 1 ≤ 30) :
    (detect d lmT 480 now).2.trigger_reasons = [TriggerReason.torso_angle_abnormal 90] ∧
    (detect d lmT 480 now).2.severity = AlertSeverity.SEVERE ∧
    ((detect d lmT 480 now).2.is_fall_detected = true ↔
       ((5:ℤ) ≤ c + 1 ∧ ¬ (now - L < 30))) ∧
    StFacts (detect d lmT 480 now).1 (m + 1) (c + 1)
      (if (5:ℤ) ≤ c + 1 ∧ ¬ (now - L < 30) then now else L) := by
  obtain ⟨hsev, hcs, hcfr, hcd, hch, hsize, hcons, hlast⟩ := h
  have htr := detect_triggers_lmT d m hsev hcs hch hsize hm
  have htrk := detect_tracker_lmT d m hch hsize hm
  have hconsec : detect_consec d lmT 480 = c + 1 := by
    unfold detect_consec update_consecutive
    rw [htr, hcons]
    simp
  have hcool : is_in_cooldown d now = true ↔ now - L < 30 := by
    rw [is_in_cooldown_true_iff, hlast, hcd]
  have hsa : should_alert_flag d 1 (c + 1) = true ↔ (5:ℤ) ≤ c + 1 := by
    rw [should_alert_flag_true_iff, hcfr]
    norm_num
  have halert : detect_alert d lmT 480 now = true ↔
      ((5:ℤ) ≤ c + 1 ∧ ¬ (now - L < 30)) := by
    rw [detect_alert_eq, htr, hconsec]
    simp only [List.length_singleton, Bool.and_eq_true, Bool.not_eq_true']
    rw [hsa]
    constructor
    · rintro ⟨h1, h2⟩
      exact ⟨h1, fun hc => by rw [hcool.2 hc] at h2; exact Bool.noConfusion h2⟩
    · rintro ⟨h1, h2⟩
      refine ⟨h1, ?_⟩
      cases hb : is_in_cooldown d now
      · rfl
      · exact absurd (hcool.1 hb) h2
  refine ⟨by rw [detect_snd_reasons, htr], by rw [detect_snd_severity, htr], halert, ?_⟩
  refine ⟨by simp [hsev], by simp [hcs], by simp [hcfr], by simp [hcd],
    by rw [detect_fst_tracker]; exact htrk.1, by rw [detect_fst_tracker]; exact htrk.2,
    by rw [detect_fst_consec, hconsec], ?_⟩
  rw [detect_fst_last_alert]
  by_cases hp : (5:ℤ) ≤ c + 1 ∧ ¬ (now - L < 30)
  · rw [if_pos hp, if_pos (halert.2 hp)]
  · rw [if_neg hp, if_neg (by
      cases hb : detect_alert d lmT 480 now
      · simp
      · exact absurd (halert.1 hb) hp), hlast]

/-- One `detect` step on the all-joints-missing frame `lmE` from a
`StFacts` state: no rule triggers, severity is NONE, the counter decays
by one (floored at 0), yet the alarm still fires exactly when the decayed
counter stays at or above the threshold and the cooldown has elapsed. -/
lemma empty_step (d : FallDetector) (m : ℕ) (c : ℤ) (L now : ℝ)
    (h : StFacts d m c L) :
    (detect d lmE 480 now).2.trigger_reasons = [] ∧
    (detect d lmE 480 now).2.severity = AlertSeverity.NONE ∧
    ((detect d lmE 480 now).2.is_fall_detected = true ↔
       ((5:ℤ) ≤ c - 1 ∧ ¬ (now - L < 30))) ∧
    StFacts (detect d lmE 480 now).1 m (max 0 (c - 1))
      (if (5:ℤ) ≤ c - 1 ∧ ¬ (now - L < 30) then now else L) := by
  obtain ⟨hsev, hcs, hcfr, hcd, hch, hsize, hcons, hlast⟩ := h
  have htr := detect_triggers_lmE d m hcs hch
  have hconsec : detect_consec d lmE 480 = max 0 (c - 1) := by
    unfold detect_consec update_consecutive
    rw [htr, hcons]
    simp
  have hcool : is_in_cooldown d now = true ↔ now - L < 30 := by
    rw [is_in_cooldown_true_iff, hlast, hcd]
  have hsa : should_alert_flag d 0 (max 0 (c - 1)) = true ↔ (5:ℤ) ≤ c - 1 := by
    rw [should_alert_flag_true_iff, hcfr]
    omega
  have halert : detect_alert d lmE 480 now = true ↔
      ((5:ℤ) ≤ c - 1 ∧ ¬ (now - L < 30)) := by
    rw [detect_alert_eq, htr, hconsec]
    simp only [List.length_nil, Bool.and_eq_true, Bool.not_eq_true']
    rw [hsa]
    constructor
    · rintro ⟨h1, h2⟩
      exact ⟨h1, fun hc => by rw [hcool.2 hc] at h2; exact Bool.noConfusion h2⟩
    · rintro ⟨h1, h2⟩
      refine ⟨h1, ?_⟩
      cases hb : is_in_cooldown d now
      · rfl
      · exact absurd (hcool.1 hb) h2
  refine ⟨by rw [detect_snd_reasons, htr], by rw [detect_snd_severity, htr], halert, ?_⟩
  refine ⟨by simp [hsev], by simp [hcs], by simp [hcfr], by simp [hcd],
    by rw [detect_fst_tracker, detect_tracker_lmE]; exact hch,
    by rw [detect_fst_tracker, detect_tracker_lmE]; exact hsize,
    by rw [detect_fst_consec, hconsec], ?_⟩
  rw [detect_fst_last_alert]
  by_cases hp : (5:ℤ) ≤ c - 1 ∧ ¬ (now - L < 30)
  · rw [if_pos hp, if_pos (halert.2 hp)]
  · rw [if_neg hp, if_neg (by
      cases hb : detect_alert d lmE 480 now
      · simp
      · exact absurd (halert.1 hb) hp), hlast]

/-- The index-loop of `get_max_center_shift` enumerates exactly the
adjacent pairs of the window of the last `cf + 1` buffered samples. -/
lemma range_pairs_eq_zip (L : List (ℤ × ℤ)) (cf : ℕ) (h1 : 1 ≤ cf) (h2 : cf + 1 ≤ L.length) :
    (List.range cf).map (fun j =>
      calculate_center_shift (L.getD (L.length - cf + j) (0, 0))
        (L.getD (L.length - cf + j - 1) (0, 0))) =
    ((L.drop (L.length - (cf + 1))).zip (L.drop (L.length - (cf + 1))).tail).map
      (fun p => calculate_center_shift p.2 p.1) := by
  have hwlen : (L.drop (L.length - (cf + 1))).length = cf + 1 := by
    rw [List.length_drop]
    omega
  refine List.ext_getElem ?_ ?_
  · simp [hwlen]
    omega
  · intro i hi1 hi2
    have hicf : i < cf := by simpa using hi1
    rw [List.getElem_map, List.getElem_range, List.getElem_map, List.getElem_zip]
    dsimp only
    rw [List.getElem_tail, List.getElem_drop, List.getElem_drop,
      show L.length - cf + i - 1 = (L.length - (cf + 1)) + i from by omega,
      show L.length - cf + i = (L.length - (cf + 1)) + (i + 1) from by omega,
      List.getD_eq_getElem L (0, 0)
        (show (L.length - (cf + 1)) + (i + 1) < L.length from by omega),
      List.getD_eq_getElem L (0, 0)
        (show (L.length - (cf + 1)) + i < L.length from by omega)]

/-- Claim C6: with at least two buffered samples and a positive window,
`get_max_center_shift` is the maximum of the pairwise distances between
the `min(K, length-1)` adjacent pairs of the window of the last
`min(K, length-1) + 1` center points (not any first-to-last net
displacement), and it is absent with fewer than two samples. -/
theorem c6_max_center_shift_adjacent_pairs :
    ∀ (t : AngleTracker) (K : ℕ),
      (t.center_history.length < 2 → t.get_max_center_shift K = none) ∧
      (2 ≤ t.center_history.length → 1 ≤ K →
        (t.center_history.drop
            (t.center_history.length - (min K (t.center_history.length - 1) + 1))).length
          = min K (t.center_history.length - 1) + 1 ∧
        t.get_max_center_shift K =
          (((t.center_history.drop
              (t.center_history.length - (min K (t.center_history.length - 1) + 1))).zip
            (t.center_history.drop
              (t.center_history.length - (min K (t.center_history.length - 1) + 1))).tail).map
            (fun p => calculate_center_shift p.2 p.1)).max?) := by
  intro t K
  constructor
  · intro h
    unfold AngleTracker.get_max_center_shift
    rw [if_pos h]
  · intro h2 hK
    have hcf1 : 1 ≤ min K (t.center_history.length - 1) := by omega
    have hcfn : min K (t.center_history.length - 1) + 1 ≤ t.center_history.length := by omega
    constructor
    · rw [List.length_drop]
      omega
    · unfold AngleTracker.get_max_center_shift
      rw [if_neg (by omega)]
      dsimp only
      rw [range_pairs_eq_zip t.center_history (min K (t.center_history.length - 1)) hcf1 hcfn]

/-- Witness for C6 at a concrete three-sample history: the two adjacent
distances are 5 and 0 and the maximum 5 is returned (the net first-to-last
displacement would also be 5 here, so a second check below uses a history
where the two notions differ). -/
theorem c6_max_center_shift_adjacent_pairs_witness :
    ((⟨30, [], [(0, 0), (3, 4), (3, 4)], []⟩ : AngleTracker).get_max_center_shift 5 =
      some 5) ∧
    ((⟨30, [], [(0, 0), (3, 4), (0, 0)], []⟩ : AngleTracker).get_max_center_shift 5 =
      some 5) := by
  constructor
  · have h := (c6_max_center_shift_adjacent_pairs ⟨30, [], [(0, 0), (3, 4), (3, 4)], []⟩ 5).2
      (by norm_num) (by norm_num)
    rw [h.2]
    norm_num [List.max?, calculate_center_shift]
    rw [show ((25:ℝ)) = 5 ^ 2 by norm_num, Real.sqrt_sq (by norm_num : (0:ℝ) ≤ 5)]
  · have h := (c6_max_center_shift_adjacent_pairs ⟨30, [], [(0, 0), (3, 4), (0, 0)], []⟩ 5).2
      (by norm_num) (by norm_num)
    rw [h.2]
    norm_num [List.max?, calculate_center_shift]
    rw [show ((25:ℝ)) = 5 ^ 2 by norm_num, Real.sqrt_sq (by norm_num : (0:ℝ) ≤ 5)]

/-- Claim C7 counterexample: a joint map whose nose lies below the frame
(y = 960 on a 480-pixel frame, as produced for out-of-frame MediaPipe
landmarks) yields a head-height value of 2, outside [0, 1], refuting the
unconditional range claim. -/
theorem c7_head_height_outside_unit :
    calculate_head_height_ratio' { nose := some (0, 960) } 480 = some 2 ∧
    ¬ ((2:ℝ) ≤ 1) := by
  constructor
  · unfold calculate_head_height_ratio'
    norm_num
  · norm_num

/-- Claim C7 amended: with the nose present and a positive frame height
the function returns exactly `nose.y / frame_height`, and this value lies
in [0, 1] provided the nose y-coordinate lies within the frame. -/
theorem c7_head_height_formula :
    ∀ (jm : JointMap) (H : ℤ) (p : ℤ × ℤ), jm.nose = some p → 0 < H →
      calculate_head_height_ratio' jm H = some ((p.2 : ℝ) / (H : ℝ)) ∧
      (0 ≤ p.2 → p.2 ≤ H → 0 ≤ ((p.2 : ℝ) / (H : ℝ)) ∧ ((p.2 : ℝ) / (H : ℝ)) ≤ 1) := by
  intro jm H p hn hH
  have hHr : (0:ℝ) < (H : ℝ) := by exact_mod_cast hH
  constructor
  · unfold calculate_head_height_ratio'
    rw [hn]
  · intro hy0 hyH
    constructor
    · apply div_nonneg
      · exact_mod_cast hy0
      · exact le_of_lt hHr
    · rw [div_le_one hHr]
      exact_mod_cast hyH

theorem c7_head_height_formula_witness :
    calculate_head_height_ratio' { nose := some ((0:ℤ), (240:ℤ)) } 480 =
      some ((((240:ℤ) : ℝ)) / (((480:ℤ) : ℝ))) ∧
    0 ≤ (((240:ℤ) : ℝ)) / (((480:ℤ) : ℝ)) ∧
    (((240:ℤ) : ℝ)) / (((480:ℤ) : ℝ)) ≤ 1 := by
  have h := c7_head_height_formula { nose := some (0, 240) } 480 (0, 240) rfl (by norm_num)
  exact ⟨h.1, h.2 (by norm_num) (by norm_num)⟩

theorem c2_cooldown_window_witness :
    (detect { default_detector with last_alert_time := 100, consecutive_detections := 10 }
      lmE 480 110).2.is_fall_detected = false := by
  refine c2_cooldown_window.1
    { default_detector with last_alert_time := 100, consecutive_detections := 10 }
    [(lmE, 480, 110)] 100 rfl ?_ _ ?_
  · intro f hf
    rcases List.mem_singleton.1 hf with rfl
    refine ⟨by norm_num, ?_⟩
    show (110:ℝ) < 100 + default_detector.cooldown_seconds
    norm_num [default_detector, fall_detector_init]
  · rw [run_cons]
    exact List.mem_cons_self _ _

/-- Nose-only frame at height `y`. -/
def lmN (y : ℤ) : JointMap := { nose := some (0, y) }

/-- Frame combining the horizontal torso of `lmT` with a nose at the very
bottom of a 480-pixel frame. -/
def lmTN : JointMap :=
  { nose := some (0, 480), left_shoulder := some (0, 0), right_shoulder := some (2, 0),
    left_hip := some (10, 0), right_hip := some (12, 0) }

lemma torso_angle_lmTN : calculate_torso_angle lmTN = some 90 := by
  have h1 : pyint ((((0:ℤ) : ℚ) + ((2:ℤ) : ℚ)) / 2) = 1 := by norm_num [pyint]
  have h2 : pyint ((((0:ℤ) : ℚ) + ((0:ℤ) : ℚ)) / 2) = 0 := by norm_num [pyint]
  have h3 : pyint ((((10:ℤ) : ℚ) + ((12:ℤ) : ℚ)) / 2) = 11 := by norm_num [pyint]
  simp only [calculate_torso_angle, lmTN, h1, h2, h3]
  norm_num [calculate_angle_from_vertical]

lemma body_center_lmTN : calculate_body_center lmTN = some (7, 0) := by
  simp only [calculate_body_center, lmTN]
  norm_num [pyint]

/-- First nose-only frame from a fresh-like state: no rule can trigger
(no head history yet, no baseline, no center history). -/
lemma nose_first_step (d : FallDetector) (y : ℤ) (now : ℝ)
    (hbase : d.baseline_head_height = none)
    (hcen : d.angle_tracker.center_history = [])
    (hhh : d.angle_tracker.head_height_history = [])
    (hsize : d.angle_tracker.history_size = 30)
    (hcons : d.consecutive_detections = 0)
    (hcfr : d.consecutive_frames = 5)
    (hlast : d.last_alert_time = 0) :
    detect_triggers d (lmN y) 480 = ([], AlertSeverity.NONE) ∧
    (detect d (lmN y) 480 now).1.angle_tracker.head_height_history =
      [((y : ℝ) / ((480:ℤ) : ℝ))] ∧
    (detect d (lmN y) 480 now).1.angle_tracker.torso_history =
      d.angle_tracker.torso_history ∧
    (detect d (lmN y) 480 now).1.angle_tracker.center_history = [] ∧
    (detect d (lmN y) 480 now).1.angle_tracker.history_size = 30 ∧
    (detect d (lmN y) 480 now).1.consecutive_detections = 0 ∧
    (detect d (lmN y) 480 now).1.last_alert_time = 0 ∧
    (detect d (lmN y) 480 now).2.is_fall_detected = false := by
  have htorso : calculate_torso_angle (lmN y) = none := rfl
  have hcenter : calculate_body_center (lmN y) = none := rfl
  have hhead : calculate_head_height_ratio' (lmN y) 480 =
      some ((y : ℝ) / ((480:ℤ) : ℝ)) := rfl
  have htrk : detect_tracker d (lmN y) 480 =
      { d.angle_tracker with head_height_history := [((y : ℝ) / ((480:ℤ) : ℝ))] } := by
    unfold detect_tracker AngleTracker.update
    rw [htorso, hcenter, hhead]
    dsimp only
    rw [hhh, hsize]
    norm_num
  have hghc : (detect_tracker d (lmN y) 480).get_head_height_change = none := by
    rw [htrk]
    unfold AngleTracker.get_head_height_change
    norm_num
  have hgmc : (detect_tracker d (lmN y) 480).get_max_center_shift 5 = none := by
    rw [htrk]
    unfold AngleTracker.get_max_center_shift
    dsimp only
    rw [hcen]
    norm_num
  have hhd : check_head_drop d (detect_tracker d (lmN y) 480) ((y : ℝ) / ((480:ℤ) : ℝ)) = false := by
    unfold check_head_drop
    rw [hghc, hbase]
    simp
  have hcc : check_center_shift d (detect_tracker d (lmN y) 480) = false := by
    unfold check_center_shift
    rw [hgmc]
  have htrig : detect_triggers d (lmN y) 480 = ([], AlertSeverity.NONE) := by
    unfold detect_triggers eval_triggers
    rw [htorso, hhead]
    dsimp only
    rw [hhd, hcc]
    simp
  have hconsec : detect_consec d (lmN y) 480 = 0 := by
    unfold detect_consec update_consecutive
    rw [htrig, hcons]
    simp
  have halert : detect_alert d (lmN y) 480 now = false := by
    rw [detect_alert_eq, htrig, hconsec]
    have hsa : should_alert_flag d 0 0 = false := by
      unfold should_alert_flag
      rw [hcfr]
      norm_num
    show (should_alert_flag d 0 0 && !is_in_cooldown d now) = false
    rw [hsa]
    simp
  refine ⟨htrig, ?_, ?_, ?_, ?_, ?_, ?_, ?_⟩
  · rw [detect_fst_tracker, htrk]
  · rw [detect_fst_tracker, htrk]
  · rw [detect_fst_tracker, htrk]
    exact hcen
  · rw [detect_fst_tracker, htrk]
    exact hsize
  · rw [detect_fst_consec, hconsec]
  · rw [detect_fst_last_alert, halert]
    simp [hlast]
  · rw [detect_snd_fall, halert]

/-- Second frame `lmTN`: the torso rule (SEVERE) and the head-drop rule
both trigger in the same frame, giving two reasons while the counter is
only 1; the alarm fires as soon as the cooldown has elapsed. -/
lemma tn_step (d : FallDetector) (now : ℝ)
    (hsev : d.severe_angle_min = 50)
    (hhd : d.head_drop_threshold = 0.15)
    (hcs : d.center_shift_threshold = 150)
    (hcfr : d.consecutive_frames = 5)
    (hcd : d.cooldown_seconds = 30)
    (hcen : d.angle_tracker.center_history = [])
    (hth : d.angle_tracker.torso_history = [])
    (hhh : d.angle_tracker.head_height_history = [(((96:ℤ) : ℝ) / ((480:ℤ) : ℝ))])
    (hsize : d.angle_tracker.history_size = 30)
    (hcons : d.consecutive_detections = 0)
    (hlast : d.last_alert_time = 0) :
    (detect d lmTN 480 now).2.trigger_reasons =
      [TriggerReason.torso_angle_abnormal 90, TriggerReason.head_drop] ∧
    (detect d lmTN 480 now).2.severity = AlertSeverity.SEVERE ∧
    (detect d lmTN 480 now).1.consecutive_detections = 1 ∧
    ((detect d lmTN 480 now).2.is_fall_detected = true ↔ ¬ (now - 0 < 30)) := by
  have hhead : calculate_head_height_ratio' lmTN 480 =
      some (((480:ℤ) : ℝ) / ((480:ℤ) : ℝ)) := rfl
  have htrk : detect_tracker d lmTN 480 =
      { d.angle_tracker with
          torso_history := [(90 : ℝ)],
          center_history := [(7, 0)],
          head_height_history := [(((96:ℤ) : ℝ) / ((480:ℤ) : ℝ)), (((480:ℤ) : ℝ) / ((480:ℤ) : ℝ))] } := by
    unfold detect_tracker AngleTracker.update
    rw [torso_angle_lmTN, body_center_lmTN, hhead]
    dsimp only
    rw [hcen, hth, hhh, hsize]
    norm_num
  have hghc : (detect_tracker d lmTN 480).get_head_height_change =
      some ((((480:ℤ) : ℝ) / ((480:ℤ) : ℝ)) - (((96:ℤ) : ℝ) / ((480:ℤ) : ℝ))) := by
    rw [htrk]
    unfold AngleTracker.get_head_height_change
    norm_num
  have hgmc : (detect_tracker d lmTN 480).get_max_center_shift 5 = none := by
    rw [htrk]
    unfold AngleTracker.get_max_center_shift
    norm_num
  have hct : check_torso_angle d 90 = (true, AlertSeverity.SEVERE) := by
    unfold check_torso_angle
    rw [hsev]
    norm_num
  have hhdrop : check_head_drop d (detect_tracker d lmTN 480)
      (((480:ℤ) : ℝ) / ((480:ℤ) : ℝ)) = true := by
    unfold check_head_drop
    rw [hghc, hhd]
    norm_num
  have hcc : check_center_shift d (detect_tracker d lmTN 480) = false := by
    unfold check_center_shift
    rw [hgmc]
  have htrig : detect_triggers d lmTN 480 =
      ([TriggerReason.torso_angle_abnormal 90, TriggerReason.head_drop],
       AlertSeverity.SEVERE) := by
    unfold detect_triggers eval_triggers
    rw [torso_angle_lmTN, hhead]
    dsimp only
    rw [hct, hhdrop, hcc]
    simp [AlertSeverity.value]
  have hconsec : detect_consec d lmTN 480 = 1 := by
    unfold detect_consec update_consecutive
    rw [htrig, hcons]
    simp
  have hcool : is_in_cooldown d now = true ↔ now - 0 < 30 := by
    rw [is_in_cooldown_true_iff, hlast, hcd]
  have halert : detect_alert d lmTN 480 now = true ↔ ¬ (now - 0 < 30) := by
    rw [detect_alert_eq, htrig, hconsec]
    have hsa : should_alert_flag d 2 1 = true := by
      unfold should_alert_flag
      norm_num
    rw [show ([TriggerReason.torso_angle_abnormal 90, TriggerReason.head_drop].length) = 2
      from rfl, hsa]
    simp only [Bool.true_and, Bool.not_eq_true']
    constructor
    · intro h2 hc
      rw [hcool.2 hc] at h2
      exact Bool.noConfusion h2
    · intro h2
      cases hb : is_in_cooldown d now
      · rfl
      · exact absurd (hcool.1 hb) h2
  refine ⟨by rw [detect_snd_reasons, htrig], by rw [detect_snd_severity, htrig],
    by rw [detect_fst_consec, hconsec], by rw [detect_snd_fall]; exact halert⟩

/-- Severity characterization of the trigger-evaluation stage: SEVERE is
produced exactly by a present torso angle at or above
`severe_angle_min`; when rules trigger but none is the torso rule, the
final severity is exactly MILD. -/
lemma eval_triggers_severity (d : FallDetector) (tw : AngleTracker) (ta hh : Option ℝ) :
    (((eval_triggers d tw ta hh).2 = AlertSeverity.SEVERE) ↔
      ∃ a, ta = some a ∧ d.severe_angle_min ≤ a) ∧
    ((eval_triggers d tw ta hh).1 ≠ [] →
      (∀ a : ℝ, TriggerReason.torso_angle_abnormal a ∉ (eval_triggers d tw ta hh).1) →
      (eval_triggers d tw ta hh).2 = AlertSeverity.MILD) := by
  rcases ta with _ | a
  · unfold eval_triggers
    dsimp only
    constructor
    · constructor
      · intro hs
        exfalso
        rcases hh with _ | v
        · by_cases hcc : check_center_shift d tw <;> simp [hcc] at hs
        · by_cases hhd : check_head_drop d tw v <;>
            by_cases hcc : check_center_shift d tw <;>
            simp [hhd, hcc] at hs
      · rintro ⟨a, ha, _⟩
        exact Option.noConfusion ha
    · intro hne _
      rcases hh with _ | v
      · by_cases hcc : check_center_shift d tw <;> simp [hcc] at hne ⊢
      · by_cases hhd : check_head_drop d tw v <;>
          by_cases hcc : check_center_shift d tw <;> simp [hhd, hcc] at hne ⊢
  · by_cases hsev : d.severe_angle_min ≤ a
    · have hc : check_torso_angle d a = (true, AlertSeverity.SEVERE) := by
        unfold check_torso_angle
        rw [if_pos hsev]
      unfold eval_triggers
      dsimp only
      rw [hc]
      constructor
      · constructor
        · intro _
          exact ⟨a, rfl, hsev⟩
        · intro _
          rcases hh with _ | v
          · by_cases hcc : check_center_shift d tw <;> simp [hcc, AlertSeverity.value]
          · by_cases hhd : check_head_drop d tw v <;>
              by_cases hcc : check_center_shift d tw <;>
              simp [hhd, hcc, AlertSeverity.value]
      · intro _ hmem
        exfalso
        refine hmem a ?_
        rcases hh with _ | v
        · by_cases hcc : check_center_shift d tw <;> simp [hcc, AlertSeverity.value]
        · by_cases hhd : check_head_drop d tw v <;>
            by_cases hcc : check_center_shift d tw <;>
            simp [hhd, hcc, AlertSeverity.value]
    · by_cases hmild : d.mild_angle_range.1 ≤ a
      · have hc : check_torso_angle d a = (true, AlertSeverity.MILD) := by
          unfold check_torso_angle
          rw [if_neg hsev, if_pos hmild]
        unfold eval_triggers
        dsimp only
        rw [hc]
        constructor
        · constructor
          · intro hs
            exfalso
            rcases hh with _ | v
            · by_cases hcc : check_center_shift d tw <;>
                simp [hcc, AlertSeverity.value] at hs
            · by_cases hhd : check_head_drop d tw v <;>
                by_cases hcc : check_center_shift d tw <;>
                simp [hhd, hcc, AlertSeverity.value] at hs
          · rintro ⟨a', ha', hge⟩
            rw [Option.some.injEq] at ha'
            subst ha'
            exact absurd hge hsev
        · intro _ hmem
          exfalso
          refine hmem a ?_
          rcases hh with _ | v
          · by_cases hcc : check_center_shift d tw <;> simp [hcc, AlertSeverity.value]
          · by_cases hhd : check_head_drop d tw v <;>
              by_cases hcc : check_center_shift d tw <;>
              simp [hhd, hcc, AlertSeverity.value]
      · have hc : check_torso_angle d a = (false, AlertSeverity.NONE) := by
          unfold check_torso_angle
          rw [if_neg hsev, if_neg hmild]
        unfold eval_triggers
        dsimp only
        rw [hc]
        constructor
        · constructor
          · intro hs
            exfalso
            rcases hh with _ | v
            · by_cases hcc : check_center_shift d tw <;> simp [hcc] at hs
            · by_cases hhd : check_head_drop d tw v <;>
                by_cases hcc : check_center_shift d tw <;>
                simp [hhd, hcc] at hs
          · rintro ⟨a', ha', hge⟩
            rw [Option.some.injEq] at ha'
            subst ha'
            exact absurd hge hsev
        · intro hne _
          rcases hh with _ | v
          · by_cases hcc : check_center_shift d tw <;> simp [hcc] at hne ⊢
          · by_cases hhd : check_head_drop d tw v <;>
              by_cases hcc : check_center_shift d tw <;> simp [hhd, hcc] at hne ⊢

/-- Claim C9: the frame severity of a `detect` call is SEVERE exactly
when the torso angle was computed and reached `severe_angle_min`; when
rules trigger but the torso rule is not among them, the severity is
exactly MILD. -/
theorem c9_severity_severe_iff :
    ∀ (d : FallDetector) (lm : JointMap) (fh : ℤ) (now : ℝ),
      ((detect d lm fh now).2.severity = AlertSeverity.SEVERE ↔
        ∃ a, calculate_torso_angle lm = some a ∧ d.severe_angle_min ≤ a) ∧
      ((detect d lm fh now).2.trigger_reasons ≠ [] →
        (∀ a : ℝ, TriggerReason.torso_angle_abnormal a ∉ (detect d lm fh now).2.trigger_reasons) →
        (detect d lm fh now).2.severity = AlertSeverity.MILD) := by
  intro d lm fh now
  simp only [detect_snd_severity, detect_snd_reasons]
  exact eval_triggers_severity d (detect_tracker d lm fh) (calculate_torso_angle lm)
    (calculate_head_height_ratio' lm fh)

/-- Head-drop-only frame: after one nose sample at 96, a nose sample at
the frame bottom triggers exactly the head-drop rule. -/
lemma n480_step (d : FallDetector) (now : ℝ)
    (hhd : d.head_drop_threshold = 0.15)
    (hcen : d.angle_tracker.center_history = [])
    (hhh : d.angle_tracker.head_height_history = [(((96:ℤ) : ℝ) / ((480:ℤ) : ℝ))])
    (hsize : d.angle_tracker.history_size = 30) :
    (detect d (lmN 480) 480 now).2.trigger_reasons = [TriggerReason.head_drop] := by
  have hhead : calculate_head_height_ratio' (lmN 480) 480 =
      some (((480:ℤ) : ℝ) / ((480:ℤ) : ℝ)) := rfl
  have htorso : calculate_torso_angle (lmN 480) = none := rfl
  have hcenter : calculate_body_center (lmN 480) = none := rfl
  have hchh : (detect_tracker d (lmN 480) 480).head_height_history =
      [(((96:ℤ) : ℝ) / ((480:ℤ) : ℝ)), (((480:ℤ) : ℝ) / ((480:ℤ) : ℝ))] := by
    unfold detect_tracker AngleTracker.update
    rw [htorso, hcenter, hhead]
    dsimp only
    rw [hhh, hsize]
    norm_num
  have hchc : (detect_tracker d (lmN 480) 480).center_history = [] := by
    unfold detect_tracker AngleTracker.update
    rw [htorso, hcenter, hhead]
    dsimp only
    exact hcen
  have hghc : (detect_tracker d (lmN 480) 480).get_head_height_change =
      some ((((480:ℤ) : ℝ) / ((480:ℤ) : ℝ)) - (((96:ℤ) : ℝ) / ((480:ℤ) : ℝ))) := by
    unfold AngleTracker.get_head_height_change
    rw [hchh]
    norm_num
  have hgmc : (detect_tracker d (lmN 480) 480).get_max_center_shift 5 = none := by
    unfold AngleTracker.get_max_center_shift
    rw [hchc]
    norm_num
  have hdrop : check_head_drop d (detect_tracker d (lmN 480) 480)
      (((480:ℤ) : ℝ) / ((480:ℤ) : ℝ)) = true := by
    unfold check_head_drop
    rw [hghc, hhd]
    norm_num
  have hcc : check_center_shift d (detect_tracker d (lmN 480) 480) = false := by
    unfold check_center_shift
    rw [hgmc]
  rw [detect_snd_reasons]
  unfold detect_triggers eval_triggers
  rw [htorso, hhead]
  dsimp only
  rw [hdrop, hcc]
  simp

theorem c9_severity_severe_iff_witness :
    (detect default_detector lmT 480 0).2.severity = AlertSeverity.SEVERE ∧
    (detect (detect default_detector (lmN 96) 480 99).1 (lmN 480) 480 100).2.severity =
      AlertSeverity.MILD := by
  constructor
  · refine (c9_severity_severe_iff default_detector lmT 480 0).1.mpr ⟨90, torso_angle_lmT, ?_⟩
    show default_detector.severe_angle_min ≤ 90
    norm_num [default_detector, fall_detector_init]
  · have hn := nose_first_step default_detector 96 99 rfl rfl rfl rfl rfl rfl rfl
    have hr := n480_step (detect default_detector (lmN 96) 480 99).1 100
      (by rw [detect_fst_head_drop_threshold]; rfl) hn.2.2.2.1
      (by rw [hn.2.1]) hn.2.2.2.2.1
    refine (c9_severity_severe_iff (detect default_detector (lmN 96) 480 99).1
      (lmN 480) 480 100).2 ?_ ?_
    · rw [hr]
      simp
    · intro a
      rw [hr]
      simp

/-- Claim C1: the alarm-eligibility flag of every `detect` call is true
exactly when the frame's trigger count is at least 2 or the
already-updated debounce counter has reached `consecutive_frames`; the
final alarm flag is the eligibility flag gated by the cooldown; and in a
concrete two-rule frame (torso + head drop) the alarm fires although the
counter (1) is still below the threshold (5). -/
theorem c1_alarm_eligibility :
    (∀ (d : FallDetector) (n : ℕ) (c : ℤ),
       should_alert_flag d n c = true ↔ (2 ≤ n ∨ d.consecutive_frames ≤ c)) ∧
    (∀ (d : FallDetector) (lm : JointMap) (fh : ℤ) (now : ℝ),
       (detect d lm fh now).2.is_fall_detected =
         (should_alert_flag d (detect d lm fh now).2.trigger_reasons.length
            (detect d lm fh now).1.consecutive_detections && !(is_in_cooldown d now))) ∧
    ((detect (detect default_detector (lmN 96) 480 99).1 lmTN 480 100).2.trigger_reasons.length
        = 2 ∧
     (detect (detect default_detector (lmN 96) 480 99).1 lmTN 480 100).1.consecutive_detections <
       (detect (detect default_detector (lmN 96) 480 99).1 lmTN 480 100).1.consecutive_frames ∧
     (detect (detect default_detector (lmN 96) 480 99).1 lmTN 480 100).2.is_fall_detected
        = true) := by
  refine ⟨should_alert_flag_true_iff, ?_, ?_⟩
  · intro d lm fh now
    rw [detect_snd_fall, detect_alert_eq, detect_snd_reasons, detect_fst_consec]
  · have hn := nose_first_step default_detector 96 99 rfl rfl rfl rfl rfl rfl rfl
    have h2 := tn_step (detect default_detector (lmN 96) 480 99).1 100
      (by rw [detect_fst_severe_angle_min]; rfl)
      (by rw [detect_fst_head_drop_threshold]; rfl)
      (by rw [detect_fst_center_shift_threshold]; rfl)
      (by rw [detect_fst_consecutive_frames]; rfl)
      (by rw [detect_fst_cooldown_seconds]; rfl)
      hn.2.2.2.1
      (by rw [hn.2.2.1]; rfl)
      hn.2.1
      hn.2.2.2.2.1
      hn.2.2.2.2.2.1
      hn.2.2.2.2.2.2.1
    refine ⟨by rw [h2.1]; rfl, ?_, h2.2.2.2.2 (by norm_num)⟩
    rw [h2.2.2.1, detect_fst_consecutive_frames, detect_fst_consecutive_frames]
    show (1:ℤ) < default_detector.consecutive_frames
    norm_num [default_detector, fall_detector_init]

/-- Torso frame shifted 900 pixels to the right of `lmT`: same level
geometry (angle 90), body center truncating to `(907, 0)`. -/
def lmT2 : JointMap :=
  { left_shoulder := some (900, 0), right_shoulder := some (902, 0),
    left_hip := some (910, 0), right_hip := some (912, 0) }

lemma torso_angle_lmT2 : calculate_torso_angle lmT2 = some 90 := by
  have h1 : pyint ((((900:ℤ) : ℚ) + ((902:ℤ) : ℚ)) / 2) = 901 := by norm_num [pyint]
  have h2 : pyint ((((0:ℤ) : ℚ) + ((0:ℤ) : ℚ)) / 2) = 0 := by norm_num [pyint]
  have h3 : pyint ((((910:ℤ) : ℚ) + ((912:ℤ) : ℚ)) / 2) = 911 := by norm_num [pyint]
  simp only [calculate_torso_angle, lmT2, h1, h2, h3]
  norm_num [calculate_angle_from_vertical]

lemma body_center_lmT2 : calculate_body_center lmT2 = some (907, 0) := by
  simp only [calculate_body_center, lmT2]
  norm_num [pyint]

lemma shift_907 : calculate_center_shift ((907:ℤ), (0:ℤ)) ((7:ℤ), (0:ℤ)) = 900 := by
  unfold calculate_center_shift
  norm_num
  rw [show ((810000:ℝ)) = 900 ^ 2 by norm_num, Real.sqrt_sq (by norm_num : (0:ℝ) ≤ 900)]

lemma gmc_pair (t : AngleTracker)
    (h : t.center_history = [((7:ℤ), (0:ℤ)), ((907:ℤ), (0:ℤ))]) :
    t.get_max_center_shift 5 = some 900 := by
  unfold AngleTracker.get_max_center_shift
  rw [h]
  norm_num
  rw [show (List.range 1) = [0] from rfl]
  simp [List.max?, shift_907]

/-- Step on `lmT2` from a state whose center history is `[(7,0)]`: both
the torso rule and the center-shift rule trigger (shift 900 > 150). -/
lemma t2_step (d : FallDetector) (now : ℝ)
    (hsev : d.severe_angle_min = 50)
    (hcs : d.center_shift_threshold = 150)
    (hcen : d.angle_tracker.center_history = [((7:ℤ), (0:ℤ))])
    (hsize : d.angle_tracker.history_size = 30)
    (hcons : d.consecutive_detections = 1)
    (hcd : d.cooldown_seconds = 30)
    (hlast : d.last_alert_time = 0) :
    (detect d lmT2 480 now).2.trigger_reasons =
      [TriggerReason.torso_angle_abnormal 90, TriggerReason.center_shift] ∧
    (detect d lmT2 480 now).1.angle_tracker.center_history =
      [((7:ℤ), (0:ℤ)), ((907:ℤ), (0:ℤ))] ∧
    (detect d lmT2 480 now).1.consecutive_detections = 2 ∧
    ((detect d lmT2 480 now).2.is_fall_detected = true ↔ ¬ (now - 0 < 30)) ∧
    (detect d lmT2 480 now).1.last_alert_time =
      (if ¬ (now - 0 < 30) then now else 0) ∧
    (detect d lmT2 480 now).1.center_shift_threshold = d.center_shift_threshold := by
  have hhead : calculate_head_height_ratio' lmT2 480 = none := rfl
  have hchn : (detect_tracker d lmT2 480).center_history =
      [((7:ℤ), (0:ℤ)), ((907:ℤ), (0:ℤ))] := by
    unfold detect_tracker AngleTracker.update
    rw [torso_angle_lmT2, body_center_lmT2, hhead]
    dsimp only
    rw [hcen, hsize]
    norm_num
  have hgmc := gmc_pair (detect_tracker d lmT2 480) hchn
  have hct : check_torso_angle d 90 = (true, AlertSeverity.SEVERE) := by
    unfold check_torso_angle
    rw [hsev]
    norm_num
  have hcc : check_center_shift d (detect_tracker d lmT2 480) = true := by
    unfold check_center_shift
    rw [hgmc, hcs]
    norm_num
  have htrig : detect_triggers d lmT2 480 =
      ([TriggerReason.torso_angle_abnormal 90, TriggerReason.center_shift],
       AlertSeverity.SEVERE) := by
    unfold detect_triggers eval_triggers
    dsimp only
    rw [torso_angle_lmT2, hhead]
    dsimp only
    rw [hct, hcc]
    simp [AlertSeverity.value]
  have hconsec : detect_consec d lmT2 480 = 2 := by
    unfold detect_consec update_consecutive
    rw [htrig, hcons]
    simp
  have hcool : is_in_cooldown d now = true ↔ now - 0 < 30 := by
    rw [is_in_cooldown_true_iff, hlast, hcd]
  have halert : detect_alert d lmT2 480 now = true ↔ ¬ (now - 0 < 30) := by
    rw [detect_alert_eq, htrig, hconsec]
    have hsa : should_alert_flag d 2 2 = true := by
      unfold should_alert_flag
      norm_num
    rw [show ([TriggerReason.torso_angle_abnormal 90, TriggerReason.center_shift].length) = 2
      from rfl, hsa]
    simp only [Bool.true_and, Bool.not_eq_true']
    constructor
    · intro h2 hc
      rw [hcool.2 hc] at h2
      exact Bool.noConfusion h2
    · intro h2
      cases hb : is_in_cooldown d now
      · rfl
      · exact absurd (hcool.1 hb) h2
  refine ⟨by rw [detect_snd_reasons, htrig], by rw [detect_fst_tracker]; exact hchn,
    by rw [detect_fst_consec, hconsec], halert, ?_, by rw [detect_fst_center_shift_threshold]⟩
  rw [detect_fst_last_alert]
  by_cases hp : ¬ (now - 0 < 30)
  · rw [if_pos hp, if_pos (halert.2 hp)]
  · rw [if_neg hp, if_neg (by
      cases hb : detect_alert d lmT2 480 now
      · simp
      · exact absurd (halert.1 hb) hp), hlast]

/-- Step on the empty frame `lmE` from a state whose center history is
`[(7,0), (907,0)]`: the frame's own center feature is absent, yet the
center-shift rule still triggers from the buffered history. -/
lemma e2_step (d : FallDetector) (now : ℝ)
    (hcs : d.center_shift_threshold = 150)
    (hcen : d.angle_tracker.center_history = [((7:ℤ), (0:ℤ)), ((907:ℤ), (0:ℤ))]) :
    (detect d lmE 480 now).2.trigger_reasons = [TriggerReason.center_shift] := by
  have hgmc := gmc_pair (detect_tracker d lmE 480) (by rw [detect_tracker_lmE]; exact hcen)
  have hcc : check_center_shift d (detect_tracker d lmE 480) = true := by
    unfold check_center_shift
    rw [hgmc, hcs]
    norm_num
  rw [detect_snd_reasons]
  unfold detect_triggers eval_triggers
  rw [torso_angle_lmE, head_height_lmE]
  dsimp only
  rw [hcc]
  simp

/-- Claim C5 counterexample: after two full frames whose body centers are
900 pixels apart, a third frame with every joint missing has all three
features absent, yet the center-shift rule still triggers on that frame
(from the buffered history), refuting the claim that a rule with a
missing feature never triggers on that frame. -/
theorem c5_missing_joints_counterexample :
    calculate_torso_angle lmE = none ∧
    calculate_body_center lmE = none ∧
    calculate_head_height_ratio' lmE 480 = none ∧
    (detect (detect (detect default_detector lmT 480 100).1 lmT2 480 101).1
      lmE 480 102).2.trigger_reasons = [TriggerReason.center_shift] := by
  refine ⟨rfl, rfl, rfl, ?_⟩
  have h1 := torso_step default_detector 0 0 0 100 stfacts_default (by norm_num)
  obtain ⟨hsev1, hcs1, hcfr1, hcd1, hch1, hsize1, hcons1, hlast1⟩ := h1.2.2.2
  rw [if_neg (by norm_num)] at hlast1
  have h2 := t2_step (detect default_detector lmT 480 100).1 101
    hsev1 hcs1 (by rw [hch1]; rfl) hsize1 hcons1 hcd1 hlast1
  exact e2_step (detect (detect default_detector lmT 480 100).1 lmT2 480 101).1 102
    (by rw [h2.2.2.2.2.2]; exact hcs1) h2.2.1

/-- Claim C5 amended: the geometry functions are total and return
absence when required joints are missing, and the torso-angle and
head-drop rules indeed never trigger on a frame whose feature is absent;
the center-shift rule, however, reads only buffered history and can
trigger on a frame whose own center feature is absent (see the
counterexample). -/
theorem c5_missing_joints_amended :
    ∀ (d : FallDetector) (lm : JointMap) (fh : ℤ) (now : ℝ),
      ((lm.left_shoulder = none ∨ lm.right_shoulder = none ∨
        lm.left_hip = none ∨ lm.right_hip = none) →
          calculate_torso_angle lm = none ∧ calculate_body_center lm = none) ∧
      (lm.nose = none → calculate_head_height_ratio' lm fh = none) ∧
      (calculate_torso_angle lm = none →
        ∀ a : ℝ, TriggerReason.torso_angle_abnormal a ∉ (detect d lm fh now).2.trigger_reasons) ∧
      (calculate_head_height_ratio' lm fh = none →
        TriggerReason.head_drop ∉ (detect d lm fh now).2.trigger_reasons) := by
  intro d lm fh now
  refine ⟨?_, ?_, ?_, ?_⟩
  · intro h
    unfold calculate_torso_angle calculate_body_center
    rcases h with h | h | h | h <;> rw [h] <;>
      rcases lm.left_shoulder with _ | ls <;>
      rcases lm.right_shoulder with _ | rs <;>
      rcases lm.left_hip with _ | lh <;>
      rcases lm.right_hip with _ | rh <;>
      simp
  · intro h
    unfold calculate_head_height_ratio'
    rw [h]
  · intro h a
    rw [detect_snd_reasons]
    unfold detect_triggers eval_triggers
    rw [h]
    dsimp only
    rcases calculate_head_height_ratio' lm fh with _ | v
    · by_cases hcc : check_center_shift d (detect_tracker d lm fh) <;> simp [hcc]
    · by_cases hhd : check_head_drop d (detect_tracker d lm fh) v <;>
        by_cases hcc : check_center_shift d (detect_tracker d lm fh) <;>
        simp [hhd, hcc]
  · intro h
    rw [detect_snd_reasons]
    unfold detect_triggers eval_triggers
    rw [h]
    dsimp only
    rcases calculate_torso_angle lm with _ | a
    · by_cases hcc : check_center_shift d (detect_tracker d lm fh) <;> simp [hcc]
    · rcases hct : check_torso_angle d a with ⟨b, sev⟩
      cases b <;> by_cases hcc : check_center_shift d (detect_tracker d lm fh) <;>
        simp [hct, hcc]

theorem c5_missing_joints_amended_witness :
    calculate_torso_angle lmE = none ∧
    calculate_head_height_ratio' lmE 480 = none ∧
    (TriggerReason.torso_angle_abnormal 90 ∉
      (detect default_detector lmE 480 0).2.trigger_reasons) ∧
    (TriggerReason.head_drop ∉ (detect default_detector lmE 480 0).2.trigger_reasons) := by
  have h := c5_missing_joints_amended default_detector lmE 480 0
  exact ⟨(h.1 (Or.inl rfl)).1, h.2.1 rfl, h.2.2.1 rfl 90, h.2.2.2 rfl⟩

lemma bool_eq_false_of_iff {b : Bool} {p : Prop} (h : b = true ↔ p) (hp : ¬ p) : b = false := by
  cases hb : b
  · rfl
  · exact absurd (h.1 hb) hp

/-- Invariant for C3: along a run in which every frame triggers exactly
one rule, as long as the counter has not yet reached the threshold, the
counter equals the number of processed frames, the cooldown timestamp and
the configuration are unchanged, and no alarm has fired. -/
lemma c3_prefix (d0 : FallDetector) (frames : List DetectFrame)
    (hall : ∀ (i : ℕ) (hi : i < frames.length),
      (detect (run d0 (frames.take i)).1 (frames.get ⟨i, hi⟩).1
        (frames.get ⟨i, hi⟩).2.1 (frames.get ⟨i, hi⟩).2.2).2.trigger_reasons.length = 1)
    (h0 : d0.consecutive_detections = 0) :
    ∀ k, k ≤ frames.length → (k : ℤ) < d0.consecutive_frames →
      (run d0 (frames.take k)).1.consecutive_detections = (k : ℤ) ∧
      (run d0 (frames.take k)).1.last_alert_time = d0.last_alert_time ∧
      (run d0 (frames.take k)).1.consecutive_frames = d0.consecutive_frames ∧
      (run d0 (frames.take k)).1.cooldown_seconds = d0.cooldown_seconds ∧
      (∀ r ∈ (run d0 (frames.take k)).2, r.is_fall_detected = false) := by
  intro k
  induction k with
  | zero =>
    intro _ _
    refine ⟨by simpa using h0, by simp, by simp, by simp, by simp⟩
  | succ k ih =>
    intro hk1 hkn
    have hklt : k < frames.length := by omega
    have hkn' : (k : ℤ) < d0.consecutive_frames := by push_cast at hkn ⊢; omega
    obtain ⟨ihc, ihl, ihf, ihd, ihr⟩ := ih (by omega) hkn'
    have hdec : frames.take (k + 1) = frames.take k ++ [frames.get ⟨k, hklt⟩] := by
      rw [List.take_succ, List.getElem?_eq_getElem hklt]
      rfl
    set s := (run d0 (frames.take k)).1 with hs
    set f := frames.get ⟨k, hklt⟩ with hf
    have htrig := hall k hklt
    have hlen1 : (detect_triggers s f.1 f.2.1).1.length = 1 := by
      rw [← detect_snd_reasons s f.1 f.2.1 f.2.2]
      exact htrig
    have hconsec : detect_consec s f.1 f.2.1 = (k : ℤ) + 1 := by
      unfold detect_consec update_consecutive
      rw [hlen1, ihc]
      simp
    have hflag : should_alert_flag s (detect_triggers s f.1 f.2.1).1.length
        (detect_consec s f.1 f.2.1) = false := by
      refine bool_eq_false_of_iff (should_alert_flag_true_iff s _ _) ?_
      rw [hlen1, hconsec, ihf]
      push_neg
      refine ⟨by norm_num, ?_⟩
      push_cast at hkn ⊢
      omega
    have halert : detect_alert s f.1 f.2.1 f.2.2 = false := by
      rw [detect_alert_eq, hflag]
      simp
    refine ⟨?_, ?_, ?_, ?_, ?_⟩
    · rw [hdec, run_append]
      show (run s [f]).1.consecutive_detections = ((k:ℤ) + 1)
      simp only [run_cons, run_nil]
      rw [detect_fst_consec, hconsec]
    · rw [hdec, run_append]
      show (run s [f]).1.last_alert_time = d0.last_alert_time
      simp only [run_cons, run_nil]
      rw [detect_fst_last_alert, halert]
      simpa using ihl
    · rw [hdec, run_append]
      show (run s [f]).1.consecutive_frames = d0.consecutive_frames
      simp only [run_cons, run_nil]
      rw [detect_fst_consecutive_frames]
      exact ihf
    · rw [hdec, run_append]
      show (run s [f]).1.cooldown_seconds = d0.cooldown_seconds
      simp only [run_cons, run_nil]
      rw [detect_fst_cooldown_seconds]
      exact ihd
    · rw [hdec, run_append]
      intro r hr
      rcases List.mem_append.1 hr with h | h
      · exact ihr r h
      · show r.is_fall_detected = false
        have : (run s [f]).2 = [(detect s f.1 f.2.1 f.2.2).2] := by
          simp only [run_cons, run_nil]
        rw [this] at h
        rcases List.mem_singleton.1 h with rfl
        rw [detect_snd_fall, halert]

/-- Claim C3: from a fresh counter with the cooldown elapsed, a run of
exactly `consecutive_frames` frames, each triggering exactly one rule,
yields `is_fall_detected = false` on every frame but the last and `true`
for the first time on frame number `consecutive_frames`; and the counter
update rule of every `detect` call is increment-on-trigger /
decrement-with-floor-zero otherwise. -/
theorem c3_debounce_first_alarm :
    ∀ (d0 : FallDetector) (frames : List DetectFrame),
      d0.consecutive_detections = 0 →
      (hne : frames ≠ []) →
      (frames.length : ℤ) = d0.consecutive_frames →
      (∀ (i : ℕ) (hi : i < frames.length),
        (detect (run d0 (frames.take i)).1 (frames.get ⟨i, hi⟩).1
          (frames.get ⟨i, hi⟩).2.1 (frames.get ⟨i, hi⟩).2.2).2.trigger_reasons.length = 1) →
      d0.cooldown_seconds ≤ (frames.getLast hne).2.2 - d0.last_alert_time →
      (((run d0 frames).2.map (fun r => r.is_fall_detected)) =
        List.replicate (frames.length - 1) false ++ [true]) ∧
      (run d0 frames).1.consecutive_detections = d0.consecutive_frames ∧
      (∀ (d : FallDetector) (lm : JointMap) (fh : ℤ) (now : ℝ),
        (detect d lm fh now).1.consecutive_detections =
          (if 0 < (detect d lm fh now).2.trigger_reasons.length
           then d.consecutive_detections + 1
           else max 0 (d.consecutive_detections - 1))) := by
  intro d0 frames h0 hne hlen hall hcool
  have hpos : 0 < frames.length := List.length_pos.2 hne
  have hlt : frames.length - 1 < frames.length := by omega
  have hdec : frames = frames.take (frames.length - 1) ++ [frames.get ⟨frames.length - 1, hlt⟩] := by
    have h1 : frames.take ((frames.length - 1) + 1) =
        frames.take (frames.length - 1) ++ [frames.get ⟨frames.length - 1, hlt⟩] := by
      rw [List.take_succ, List.getElem?_eq_getElem hlt]
      rfl
    have h2 : frames.take ((frames.length - 1) + 1) = frames := by
      rw [show (frames.length - 1) + 1 = frames.length by omega, List.take_length]
    conv_lhs => rw [← h2]
    exact h1
  obtain ⟨ihc, ihl, ihf, ihd, ihr⟩ := c3_prefix d0 frames hall h0 (frames.length - 1)
    (by omega) (by push_cast; omega)
  set s := (run d0 (frames.take (frames.length - 1))).1 with hs
  set f := frames.get ⟨frames.length - 1, hlt⟩ with hf
  have htrig := hall (frames.length - 1) hlt
  have hlen1 : (detect_triggers s f.1 f.2.1).1.length = 1 := by
    rw [← detect_snd_reasons s f.1 f.2.1 f.2.2]
    exact htrig
  have hconsec : detect_consec s f.1 f.2.1 = d0.consecutive_frames := by
    unfold detect_consec update_consecutive
    rw [hlen1, ihc]
    rw [if_pos (by decide)]
    push_cast at hlen ⊢
    omega
  have hflag : should_alert_flag s (detect_triggers s f.1 f.2.1).1.length
      (detect_consec s f.1 f.2.1) = true := by
    rw [should_alert_flag_true_iff, hlen1, hconsec, ihf]
    exact Or.inr le_rfl
  have hgl : frames.getLast hne = f := by
    rw [hf, List.getLast_eq_getElem]
    rfl
  have hcd : is_in_cooldown s f.2.2 = false := by
    rw [is_in_cooldown_false_iff, ihl, ihd]
    rw [hgl] at hcool
    exact hcool
  have halert : detect_alert s f.1 f.2.1 f.2.2 = true := by
    rw [detect_alert_eq, hflag, hcd]
    rfl
  have hrunfin : run d0 frames =
      ((run s [f]).1, (run d0 (frames.take (frames.length - 1))).2 ++ (run s [f]).2) := by
    conv_lhs => rw [hdec]
    rw [run_append]
  have hsingle : (run s [f]).2 = [(detect s f.1 f.2.1 f.2.2).2] := by
    simp only [run_cons, run_nil]
  refine ⟨?_, ?_, ?_⟩
  · rw [hrunfin]
    dsimp only
    rw [List.map_append, hsingle]
    have hpre : (run d0 (frames.take (frames.length - 1))).2.map
        (fun r => r.is_fall_detected) = List.replicate (frames.length - 1) false := by
      apply List.eq_replicate_of_mem ?_ |>.trans
      · congr 1
        rw [List.length_map, run_length, List.length_take]
        omega
      · intro b hb
        rcases List.mem_map.1 hb with ⟨r, hr, rfl⟩
        exact ihr r hr
    rw [hpre]
    congr 1
    simp only [List.map_cons, List.map_nil]
    rw [detect_snd_fall, halert]
  · rw [hrunfin]
    dsimp only
    simp only [run_cons, run_nil]
    rw [detect_fst_consec, hconsec]
  · intro d lm fh now
    rw [detect_fst_consec, detect_snd_reasons]
    unfold detect_consec update_consecutive
    by_cases h : 0 < (detect_triggers d lm fh).1.length <;> simp [h]

/-- States along the concrete torso-frame trace used for C3 and C8. -/
def trace1 : FallDetector := (detect default_detector lmT 480 100).1

def trace2 : FallDetector := (detect trace1 lmT 480 101).1

def trace3 : FallDetector := (detect trace2 lmT 480 102).1

def trace4 : FallDetector := (detect trace3 lmT 480 103).1

def trace5 : FallDetector := (detect trace4 lmT 480 104).1

def trace6 : FallDetector := (detect trace5 lmT 480 105).1

lemma chain1 : StFacts trace1 1 1 0 := by
  have h := torso_step default_detector 0 0 0 100 stfacts_default (by norm_num)
  have he : (if (5:ℤ) ≤ 0 + 1 ∧ ¬ ((100:ℝ) - 0 < 30) then (100:ℝ) else 0) = 0 :=
    if_neg (by norm_num)
  rw [he] at h
  exact h.2.2.2

lemma chain2 : StFacts trace2 2 2 0 := by
  have h := torso_step trace1 1 1 0 101 chain1 (by norm_num)
  have he : (if (5:ℤ) ≤ 1 + 1 ∧ ¬ ((101:ℝ) - 0 < 30) then (101:ℝ) else 0) = 0 :=
    if_neg (by norm_num)
  rw [he] at h
  exact h.2.2.2

lemma chain3 : StFacts trace3 3 3 0 := by
  have h := torso_step trace2 2 2 0 102 chain2 (by norm_num)
  have he : (if (5:ℤ) ≤ 2 + 1 ∧ ¬ ((102:ℝ) - 0 < 30) then (102:ℝ) else 0) = 0 :=
    if_neg (by norm_num)
  rw [he] at h
  exact h.2.2.2

lemma chain4 : StFacts trace4 4 4 0 := by
  have h := torso_step trace3 3 3 0 103 chain3 (by norm_num)
  have he : (if (5:ℤ) ≤ 3 + 1 ∧ ¬ ((103:ℝ) - 0 < 30) then (103:ℝ) else 0) = 0 :=
    if_neg (by norm_num)
  rw [he] at h
  exact h.2.2.2

lemma chain5 : StFacts trace5 5 5 104 := by
  have h := torso_step trace4 4 4 0 104 chain4 (by norm_num)
  have he : (if (5:ℤ) ≤ 4 + 1 ∧ ¬ ((104:ℝ) - 0 < 30) then (104:ℝ) else 0) = 104 :=
    if_pos (by norm_num)
  rw [he] at h
  exact h.2.2.2

lemma chain6 : StFacts trace6 6 6 104 := by
  have h := torso_step trace5 5 5 104 105 chain5 (by norm_num)
  have he : (if (5:ℤ) ≤ 5 + 1 ∧ ¬ ((105:ℝ) - 104 < 30) then (105:ℝ) else 104) = 104 :=
    if_neg (by norm_num)
  rw [he] at h
  exact h.2.2.2

theorem c3_debounce_first_alarm_witness :
    ((run default_detector [(lmT, 480, 100), (lmT, 480, 101), (lmT, 480, 102),
        (lmT, 480, 103), (lmT, 480, 104)]).2.map (fun r => r.is_fall_detected)) =
      List.replicate 4 false ++ [true] := by
  have h := c3_debounce_first_alarm default_detector
    [(lmT, 480, 100), (lmT, 480, 101), (lmT, 480, 102), (lmT, 480, 103), (lmT, 480, 104)]
    rfl (by simp) (by norm_num [default_detector, fall_detector_init]) ?_ ?_
  · simpa using h.1
  · intro i hi
    have hi5 : i < 5 := by simpa using hi
    interval_cases i
    · show (detect default_detector lmT 480 100).2.trigger_reasons.length = 1
      rw [(torso_step default_detector 0 0 0 100 stfacts_default (by norm_num)).1]
      rfl
    · show (detect trace1 lmT 480 101).2.trigger_reasons.length = 1
      rw [(torso_step trace1 1 1 0 101 chain1 (by norm_num)).1]
      rfl
    · show (detect trace2 lmT 480 102).2.trigger_reasons.length = 1
      rw [(torso_step trace2 2 2 0 102 chain2 (by norm_num)).1]
      rfl
    · show (detect trace3 lmT 480 103).2.trigger_reasons.length = 1
      rw [(torso_step trace3 3 3 0 103 chain3 (by norm_num)).1]
      rfl
    · show (detect trace4 lmT 480 104).2.trigger_reasons.length = 1
      rw [(torso_step trace4 4 4 0 104 chain4 (by norm_num)).1]
      rfl
  · show default_detector.cooldown_seconds ≤ (104:ℝ) - default_detector.last_alert_time
    norm_num [default_detector, fall_detector_init]

/-- Claim C8: along a reachable trace (five torso frames raising the
counter to 5 with an alarm at t=104, one more torso frame suppressed by
the cooldown raising the counter to 6, then an all-joints-missing frame
at t=135), the final `detect` call returns `is_fall_detected = true` with
an empty trigger-reason list and severity NONE: the alarm fires on a
frame in which no rule triggered. -/
theorem c8_alarm_without_trigger :
    ((run default_detector [(lmT, 480, 100), (lmT, 480, 101), (lmT, 480, 102),
        (lmT, 480, 103), (lmT, 480, 104), (lmT, 480, 105), (lmE, 480, 135)]).2.map
      (fun r => (r.is_fall_detected, r.trigger_reasons, r.severity))) =
    [(false, [TriggerReason.torso_angle_abnormal 90], AlertSeverity.SEVERE),
     (false, [TriggerReason.torso_angle_abnormal 90], AlertSeverity.SEVERE),
     (false, [TriggerReason.torso_angle_abnormal 90], AlertSeverity.SEVERE),
     (false, [TriggerReason.torso_angle_abnormal 90], AlertSeverity.SEVERE),
     (true, [TriggerReason.torso_angle_abnormal 90], AlertSeverity.SEVERE),
     (false, [TriggerReason.torso_angle_abnormal 90], AlertSeverity.SEVERE),
     (true, [], AlertSeverity.NONE)] := by
  have h1 := torso_step default_detector 0 0 0 100 stfacts_default (by norm_num)
  have h2 := torso_step trace1 1 1 0 101 chain1 (by norm_num)
  have h3 := torso_step trace2 2 2 0 102 chain2 (by norm_num)
  have h4 := torso_step trace3 3 3 0 103 chain3 (by norm_num)
  have h5 := torso_step trace4 4 4 0 104 chain4 (by norm_num)
  have h6 := torso_step trace5 5 5 104 105 chain5 (by norm_num)
  have h7 := empty_step trace6 6 6 104 135 chain6
  have hrun : (run default_detector [(lmT, 480, 100), (lmT, 480, 101), (lmT, 480, 102),
      (lmT, 480, 103), (lmT, 480, 104), (lmT, 480, 105), (lmE, 480, 135)]).2 =
      [(detect default_detector lmT 480 100).2, (detect trace1 lmT 480 101).2,
       (detect trace2 lmT 480 102).2, (detect trace3 lmT 480 103).2,
       (detect trace4 lmT 480 104).2, (detect trace5 lmT 480 105).2,
       (detect trace6 lmE 480 135).2] := rfl
  rw [hrun]
  simp only [List.map_cons, List.map_nil]
  rw [h1.1, h1.2.1, h2.1, h2.2.1, h3.1, h3.2.1, h4.1, h4.2.1, h5.1, h5.2.1, h6.1, h6.2.1,
    h7.1, h7.2.1]
  rw [bool_eq_false_of_iff h1.2.2.1 (by norm_num),
    bool_eq_false_of_iff h2.2.2.1 (by norm_num),
    bool_eq_false_of_iff h3.2.2.1 (by norm_num),
    bool_eq_false_of_iff h4.2.2.1 (by norm_num),
    h5.2.2.1.mpr (by norm_num),
    bool_eq_false_of_iff h6.2.2.1 (by norm_num),
    h7.2.2.1.mpr (by norm_num)]

end FallDetectionRepo
